import Mathlib

/-!
Verification development for the `user-error` crate: a shallow embedding of
its message model (`UserFacingError` from `lib.rs` and `UserError` from
`implementation.rs` / `traits.rs` / `helper.rs`) and proofs about the
construction, mutation and rendering operations.
-/

namespace UserErrorSpec

/-! ### Constants from `lib.rs` (ANSI escape prefixes) -/

/-- Embeds `SUMMARY_PREFIX` from `lib.rs`: bold white on red "Error:" label, then red bold. -/
def summaryPfx : String := "\x1b[97;41;22mError:\x1b[91;49;1m "

/-- Embeds `REASON_PREFIX` from `lib.rs`: yellow " - " bullet, then bold white. -/
def reasonPfx : String := "\x1b[93;49;1m - \x1b[97;49;1m"

/-- Embeds `HELPTEXT_PREFIX` from `lib.rs`: muted white. -/
def helptextPfx : String := "\x1b[37;49;2m"

/-- Embeds `RESET` from `lib.rs`: the SGR reset escape sequence. -/
def resetCode : String := "\x1b[0m"

/-! ### Foreign errors

A foreign `dyn Error` value exposes a display string (`to_string`) and an
optional immediate cause (`source()`). `leaf` is an error whose `source()`
is `None`; `node` is an error whose `source()` is `Some` of another error. -/

/-- A foreign error value: display text plus optional causal source. -/
inductive ErrTree where
  | leaf (d : String)
  | node (d : String) (src : ErrTree)
deriving DecidableEq

/-- The `to_string` / `Display` text of a foreign error. -/
def ErrTree.display : ErrTree → String
  | .leaf d => d
  | .node d _ => d

/-- The `source()` accessor of a foreign error. -/
def ErrTree.source : ErrTree → Option ErrTree
  | .leaf _ => none
  | .node _ s => some s

/-- The causal ancestors of an error in walk order: the immediate cause
first, the root cause last. -/
def ErrTree.ancestors : ErrTree → List ErrTree
  | .leaf _ => []
  | .node _ s => s :: s.ancestors

/-- The body of the `while let Some(error) = source` loop in `error_sources`
(`lib.rs`): starting from a present source, push each error's display string
and continue to its own source. -/
def collectSources : ErrTree → List String
  | .leaf d => [d]
  | .node d s => d :: collectSources s

/-- Embeds `error_sources` from `lib.rs`: `None` when there is no source at all,
otherwise `Some` of the display strings of the whole chain in walk order. -/
def errorSources : Option ErrTree → Option (List String)
  | none => none
  | some e => some (collectSources e)

/-! ### The `UserFacingError` struct (`lib.rs`) -/

/-- The `UserFacingError` struct from `lib.rs`. -/
structure UserFacingError where
  summary : String
  reasons : Option (List String)
  helptext : Option String
  source : Option ErrTree
deriving DecidableEq

/-- Embeds `pretty_summary` from `lib.rs`. -/
def prettySummary (summary : String) : String :=
  summaryPfx ++ summary ++ resetCode

/-- Embeds `pretty_reasons` from `lib.rs`: each reason becomes a bullet line
`REASON_PREFIX ++ reason`, the lines are joined with a newline and a single
`RESET` is appended at the very end. -/
def prettyReasons : Option (List String) → Option String
  | some reasons =>
      some (String.intercalate "\n" (reasons.map (fun r => reasonPfx ++ r)) ++ resetCode)
  | none => none

/-- Embeds `pretty_helptext` from `lib.rs`. -/
def prettyHelptext : Option String → Option String
  | some h => some (helptextPfx ++ h ++ resetCode)
  | none => none

/-- The `Display` impl for `UserFacingError` (`lib.rs`): matches on the
pretty segments and ends with `writeln!`, so a final newline is always
appended. -/
def UserFacingError.render (e : UserFacingError) : String :=
  let s := prettySummary e.summary
  match prettyReasons e.reasons, prettyHelptext e.helptext with
  | none, none => s ++ "\n"
  | some r, none => s ++ "\n" ++ r ++ "\n"
  | none, some h => s ++ "\n" ++ h ++ "\n"
  | some r, some h => s ++ "\n" ++ r ++ "\n" ++ h ++ "\n"

/-- Embeds `get_ufe_struct_members` from `lib.rs`. -/
def getUfeStructMembers (e : ErrTree) : String × Option (List String) :=
  (e.display, errorSources e.source)

/-- Embeds `From<Box<dyn Error>> for UserFacingError` (`lib.rs`). -/
def UserFacingError.fromError (e : ErrTree) : UserFacingError :=
  let m := getUfeStructMembers e
  { summary := m.1, reasons := m.2, helptext := none, source := some e }

/-- Embeds `From<Result<T, Box<dyn Error>>> for UserFacingError` (`lib.rs`):
`unwrap_err()` panics on an `Ok` value, modelled as `none`. -/
def UserFacingError.fromResult {T : Type} : Except ErrTree T → Option UserFacingError
  | .ok _ => none
  | .error e => some (UserFacingError.fromError e)

/-- Embeds `UserFacingError::new` from `lib.rs`: stores the given summary verbatim. -/
def UserFacingError.new (summary : String) : UserFacingError :=
  { summary := summary, reasons := none, helptext := none, source := none }

/-- Embeds `UserFacingError::update` from `lib.rs`. -/
def UserFacingError.update (e : UserFacingError) (summary : String) : UserFacingError :=
  { e with summary := summary }

/-- Embeds `UserFacingError::push` from `lib.rs`: inserts the old summary at index 0
of the reasons (creating the vector if absent), then replaces the summary. -/
def UserFacingError.push (e : UserFacingError) (newSummary : String) : UserFacingError :=
  let oldSummary := e.summary
  let reasons := match e.reasons with
    | some rs => some (oldSummary :: rs)
    | none => some [oldSummary]
  { e with reasons := reasons, summary := newSummary }

/-- Embeds `UserFacingError::reason` from `lib.rs`: appends the reason at the end
of the reasons vector (creating it if absent). -/
def UserFacingError.reason (e : UserFacingError) (r : String) : UserFacingError :=
  let reasons := match e.reasons with
    | some rs => some (rs ++ [r])
    | none => some [r]
  { e with reasons := reasons }

/-- Embeds `UserFacingError::clear_reasons` from `lib.rs`. -/
def UserFacingError.clearReasons (e : UserFacingError) : UserFacingError :=
  { e with reasons := none }

/-- Embeds `UserFacingError::help` from `lib.rs`. -/
def UserFacingError.help (e : UserFacingError) (h : String) : UserFacingError :=
  { e with helptext := some h }

/-- Embeds `UserFacingError::clear_helptext` from `lib.rs`. -/
def UserFacingError.clearHelptext (e : UserFacingError) : UserFacingError :=
  { e with helptext := none }

/-! ### The `UserError` struct (`implementation.rs`, `traits.rs`, `helper.rs`)

The third-party `colorful` crate (an external collaborator) wraps a string in
an SGR escape sequence and a trailing reset; it is modelled by `colorfulWrap`
with one concrete SGR parameter string per chained style combination used in
the source. The exact code numbers are the model's choice; every property
proved below depends only on the wrap-plus-reset shape. -/

/-- Model of the `colorful` crate: SGR codes, the text, then a reset. -/
def colorfulWrap (sgr : String) (s : String) : String :=
  "\x1b[" ++ sgr ++ "m" ++ s ++ "\x1b[0m"

/-- Model SGR parameters for `.color(White).bg_color(Red).bold()`. -/
def sgrWhiteBgRedBold : String := "38;5;15;48;5;9;1"

/-- Model SGR parameters for `.color(Red).bold()`. -/
def sgrRedBold : String := "38;5;9;1"

/-- Model SGR parameters for `.color(Yellow)`. -/
def sgrYellow : String := "38;5;11"

/-- Model SGR parameters for `.color(White).dim()`. -/
def sgrWhiteDim : String := "38;5;15;2"

/-- The `UserError` struct (`lib.rs` of the `UserError` revision): summary,
optional reasons, optional subtleties, optional original foreign errors. -/
structure UserError where
  summary : String
  reasons : Option (List String)
  subtleties : Option (List String)
  originalErrors : Option (List ErrTree)
deriving DecidableEq

/-- Rust's `String::pop`: removes the last character, does nothing on an
empty string. -/
def strPop (s : String) : String := ⟨s.data.dropLast⟩

/-- Embeds `helper::default_summary` (`helper.rs`): the process name is resolved
from the first command-line argument's file stem; that environment lookup is
outside the message model, so the resolved name (or its absence) is passed
in as `procName`. Falls back to "The application". -/
def defaultSummary (procName : Option String) : String :=
  procName.getD "The application" ++ " encountered an unknown error."

/-- Embeds `UserError::new` (`implementation.rs`): substitutes `default_summary()`
for an empty summary and wraps both given vectors in `Some` unconditionally. -/
def UserError.new (procName : Option String) (summary : String)
    (reasons subtleties : List String) : UserError :=
  let s := if summary.isEmpty then defaultSummary procName else summary
  { summary := s, reasons := some reasons, subtleties := some subtleties,
    originalErrors := none }

/-- Embeds `UserError::hardcoded` (`implementation.rs`): wraps both given slices in
`Some` unconditionally, no empty-summary substitution. -/
def UserError.hardcoded (summary : String) (reasons subtleties : List String) : UserError :=
  { summary := summary, reasons := some reasons, subtleties := some subtleties,
    originalErrors := none }

/-- Embeds `UserError::simple` (`implementation.rs`). -/
def UserError.simple (summary : String) : UserError :=
  { summary := summary, reasons := none, subtleties := none, originalErrors := none }

/-- The `Default` impl for `UserError` (`traits.rs`). -/
def UserError.default (procName : Option String) : UserError :=
  { summary := defaultSummary procName, reasons := none, subtleties := none,
    originalErrors := none }

/-- Embeds `From<String> for UserError` (`string_errors.rs`); the `&str` impl is
identical. -/
def UserError.fromString (s : String) : UserError :=
  { summary := s, reasons := none, subtleties := none, originalErrors := none }

/-- Embeds `UserError::update_summary` (`implementation.rs`). -/
def UserError.updateSummary (u : UserError) (s : String) : UserError :=
  { u with summary := s }

/-- Embeds `UserError::add_reason` (`implementation.rs`): inserts the new reason at
the front of the reasons list (creating it if absent). -/
def UserError.addReason (u : UserError) (r : String) : UserError :=
  let reasons := match u.reasons with
    | some v => some (r :: v)
    | none => some [r]
  { u with reasons := reasons }

/-- Embeds `UserError::update_and_push_summary` (`implementation.rs`): adds the old
summary as a reason via `add_reason`, then replaces the summary. -/
def UserError.updateAndPushSummary (u : UserError) (s : String) : UserError :=
  let oldSummary := u.summary
  let u := u.addReason oldSummary
  { u with summary := s }

/-- Embeds `UserError::clear_reasons` (`implementation.rs`). -/
def UserError.clearReasons (u : UserError) : UserError :=
  { u with reasons := none }

/-- Embeds `UserError::add_subtly` (`implementation.rs`): appends at the end. -/
def UserError.addSubtly (u : UserError) (s : String) : UserError :=
  let subtleties := match u.subtleties with
    | some v => some (v ++ [s])
    | none => some [s]
  { u with subtleties := subtleties }

/-- Embeds `UserError::clear_subtleties` (`implementation.rs`). -/
def UserError.clearSubtleties (u : UserError) : UserError :=
  { u with subtleties := none }

/-- Embeds `UserError::summary` (`implementation.rs`): `format!("{} {}", ..)` of the
colored "Error:" label and the colored summary text. -/
def UserError.summaryStr (u : UserError) : String :=
  colorfulWrap sgrWhiteBgRedBold "Error:" ++ " " ++ colorfulWrap sgrRedBold u.summary

/-- One iteration of the loop in `UserError::reasons`:
`format!("{} {}\n", "-".color(Yellow), s)`. -/
def reasonLine (s : String) : String :=
  colorfulWrap sgrYellow "-" ++ " " ++ s ++ "\n"

/-- Embeds `UserError::reasons` (`implementation.rs`): concatenates one bullet line
per reason, then `pop`s the final newline; empty string when absent. -/
def UserError.reasonsStr (u : UserError) : String :=
  match u.reasons with
  | some v => strPop (String.join (v.map reasonLine))
  | none => ""

/-- One iteration of the loop in `UserError::subtleties`:
`format!("{}\n", s.color(White).dim())`. -/
def subtlyLine (s : String) : String :=
  colorfulWrap sgrWhiteDim s ++ "\n"

/-- Embeds `UserError::subtleties` (`implementation.rs`): concatenates one dim line
per subtlety, then `pop`s the final newline; empty string when absent. -/
def UserError.subtletiesStr (u : UserError) : String :=
  match u.subtleties with
  | some v => strPop (String.join (v.map subtlyLine))
  | none => ""

/-- The `Display` impl for `UserError` (`traits.rs`): appends a newline to
the summary only when a later segment's rendered string is non-empty, and a
newline to the reasons only when both reasons and subtleties are non-empty;
then concatenates the three parts. No trailing newline. -/
def UserError.render (u : UserError) : String :=
  let summary := u.summaryStr
  let reasons := u.reasonsStr
  let subtleties := u.subtletiesStr
  let summary := if !reasons.isEmpty || !subtleties.isEmpty then summary ++ "\n" else summary
  let reasons := if !reasons.isEmpty && !subtleties.isEmpty then reasons ++ "\n" else reasons
  summary ++ reasons ++ subtleties

/-! ### Derived notions used by the statements -/

/-- Fold a sequence of `UserFacingError::reason` calls over an error. -/
def UserFacingError.applyReasons (e : UserFacingError) (calls : List String) : UserFacingError :=
  calls.foldl (fun acc r => acc.reason r) e

/-- Fold a sequence of `UserError::add_reason` calls over an error. -/
def UserError.applyAddReasons (u : UserError) (calls : List String) : UserError :=
  calls.foldl (fun acc r => acc.addReason r) u

/-- Join segments with exactly one newline between adjacent segments and no
trailing separator. -/
def joinSegs : List String → String
  | [] => ""
  | [x] => x
  | x :: xs => x ++ "\n" ++ joinSegs xs

/-- An optional rendered segment as a (zero- or one-element) segment list. -/
def optSegment : Option String → List String
  | none => []
  | some s => [s]

/-- The invariant "reasons are absent or a non-empty sequence". -/
def reasonsOk : Option (List String) → Bool
  | none => true
  | some l => !l.isEmpty

/-- Count the occurrences of the SGR reset sequence `ESC [ 0 m` in a
character list. -/
def countEscReset : List Char → Nat
  | '\x1b' :: '[' :: '0' :: 'm' :: rest => 1 + countEscReset rest
  | _ :: rest => countEscReset rest
  | [] => 0

/-- Count the occurrences of the SGR reset sequence in a string. -/
def countResets (s : String) : Nat := countEscReset s.data

/-! ### Helper lemmas -/

lemma foldl_string_append (l : List String) (a : String) :
    List.foldl (· ++ ·) a l = a ++ List.foldl (· ++ ·) "" l := by
  induction l generalizing a with
  | nil => simp [String.append_empty]
  | cons b t ih =>
      simp only [List.foldl_cons, String.empty_append]
      rw [ih (a ++ b), ih b, String.append_assoc]

lemma string_join_cons (a : String) (l : List String) :
    String.join (a :: l) = a ++ String.join l := by
  simp only [String.join, List.foldl_cons, String.empty_append]
  exact foldl_string_append l a

lemma collectSources_eq (e : ErrTree) :
    collectSources e = e.display :: e.ancestors.map ErrTree.display := by
  induction e with
  | leaf d => rfl
  | node d s ih => simp [collectSources, ErrTree.display, ErrTree.ancestors, ih]

/-! ### Claim C1 -/

/-- Claim C1: deriving a `UserFacingError` from a foreign error (the
`From<Box<dyn Error>>` conversion via `get_ufe_struct_members` and
`error_sources`) on an error whose `source()` is `None` yields absent
reasons; on an error with a causal chain of depth N it yields exactly the N
display strings of the ancestors in walk order: the outer error's immediate
cause first, the root cause last. -/
theorem c1_from_error_reasons (e : ErrTree) (d : String) :
    (UserFacingError.fromError e).reasons = errorSources e.source
    ∧ errorSources (ErrTree.leaf d).source = none
    ∧ errorSources e.source =
        (if e.ancestors = [] then none else some (e.ancestors.map ErrTree.display)) := by
  refine ⟨rfl, rfl, ?_⟩
  cases e with
  | leaf d => rfl
  | node d s =>
      simp [ErrTree.source, ErrTree.ancestors, errorSources, collectSources_eq]

/-! ### Claim C2 -/

/-- Claim C2 counterexample: `UserFacingError::new` with an empty summary
stores the empty string, not the generated placeholder — the claimed
property fails on the public constructor `UserFacingError::new`. -/
theorem c2_counterexample :
    (UserFacingError.new "").summary = ""
    ∧ (UserFacingError.new "").summary ≠ defaultSummary none := by
  exact ⟨rfl, by decide⟩

lemma defaultSummary_ne_empty (p : Option String) : defaultSummary p ≠ "" := by
  intro h
  have hlit : (" encountered an unknown error." : String).length = 30 := rfl
  have := congrArg String.length h
  rw [defaultSummary, String.length_append, hlit] at this
  simp at this

/-- Claim C2 (amended): `UserError::new` with an empty summary stores the
generated placeholder `default_summary()` — "`<process name>` encountered an
unknown error." (trailing period), process name defaulting to
"The application" — which is never the empty string; with a non-empty
summary it stores it verbatim. `UserFacingError::new` stores every summary
verbatim, including the empty string. -/
theorem c2_empty_summary_placeholder (p : Option String) (s : String)
    (rs ss : List String) (h : ¬ s = "") :
    (UserError.new p "" rs ss).summary = defaultSummary p
    ∧ (UserError.new p s rs ss).summary = s
    ∧ (UserFacingError.new s).summary = s
    ∧ defaultSummary none = "The application encountered an unknown error."
    ∧ ¬ defaultSummary p = "" := by
  have hb : s.isEmpty = false := by
    cases h2 : s.isEmpty with
    | true => exact absurd ((String.isEmpty_iff s).mp h2) h
    | false => rfl
  refine ⟨?_, ?_, rfl, rfl, defaultSummary_ne_empty p⟩
  · rfl
  · simp [UserError.new, hb]

/-- Witness for C2's theorem at `p = none`, `s = "x"`. -/
theorem c2_empty_summary_placeholder_witness :
    (UserError.new none "x" [] []).summary = "x" :=
  (c2_empty_summary_placeholder none "x" [] [] (by decide)).2.1

/-! ### Claim C3 -/

lemma applyReasons_some (calls : List String) (e : UserFacingError) (l : List String)
    (h : e.reasons = some l) :
    (e.applyReasons calls).reasons = some (l ++ calls) := by
  induction calls generalizing e l with
  | nil => simpa [UserFacingError.applyReasons] using h
  | cons r rs ih =>
      have h2 : (e.reason r).reasons = some (l ++ [r]) := by
        simp [UserFacingError.reason, h]
      have h3 := ih (e.reason r) (l ++ [r]) h2
      simpa [UserFacingError.applyReasons, List.append_assoc] using h3

lemma applyReasons_none (calls : List String) (e : UserFacingError)
    (h : e.reasons = none) :
    (e.applyReasons calls).reasons = if calls = [] then none else some calls := by
  cases calls with
  | nil => simpa [UserFacingError.applyReasons] using h
  | cons r rs =>
      have h2 : (e.reason r).reasons = some [r] := by
        simp [UserFacingError.reason, h]
      have h3 := applyReasons_some rs (e.reason r) [r] h2
      simpa [UserFacingError.applyReasons] using h3

lemma applyAddReasons_some (calls : List String) (u : UserError) (l : List String)
    (h : u.reasons = some l) :
    (u.applyAddReasons calls).reasons = some (calls.reverse ++ l) := by
  induction calls generalizing u l with
  | nil => simpa [UserError.applyAddReasons] using h
  | cons r rs ih =>
      have h2 : (u.addReason r).reasons = some (r :: l) := by
        simp [UserError.addReason, h]
      have h3 := ih (u.addReason r) (r :: l) h2
      simp only [UserError.applyAddReasons, List.foldl_cons] at h3 ⊢
      rw [h3]
      simp

lemma applyAddReasons_none (calls : List String) (u : UserError)
    (h : u.reasons = none) :
    (u.applyAddReasons calls).reasons = if calls = [] then none else some calls.reverse := by
  cases calls with
  | nil => simpa [UserError.applyAddReasons] using h
  | cons r rs =>
      have h2 : (u.addReason r).reasons = some [r] := by
        simp [UserError.addReason, h]
      have h3 := applyAddReasons_some rs (u.addReason r) [r] h2
      simp only [UserError.applyAddReasons, List.foldl_cons] at h3 ⊢
      rw [h3]
      simp

/-- Claim C3: starting from a message with no prior reasons, a sequence of n
`reason` / `add_reason` calls stores exactly the n arguments —
`UserFacingError::reason` in call (append) order, `UserError::add_reason` in
reverse (prepend) order, each implementation using one consistent direction
— and `pretty_reasons` renders one bullet entry `REASON_PREFIX ++ rᵢ` per
stored reason, newline-joined, so the rendered segment has exactly n
bulleted lines whose texts are the call arguments. -/
theorem c3_reason_calls (s : String) (calls : List String) :
    ((UserFacingError.new s).applyReasons calls).reasons
        = (if calls = [] then none else some calls)
    ∧ ((UserError.simple s).applyAddReasons calls).reasons
        = (if calls = [] then none else some calls.reverse)
    ∧ prettyReasons (some calls)
        = some (String.intercalate "\n" (calls.map (fun r => reasonPfx ++ r)) ++ resetCode)
    ∧ (calls.map (fun r => reasonPfx ++ r)).length = calls.length := by
  refine ⟨?_, ?_, rfl, by simp⟩
  · exact applyReasons_none calls _ rfl
  · exact applyAddReasons_none calls _ rfl

/-! ### Claim C4 -/

/-- Claim C4 counterexample: in `UserFacingError`, `push` inserts the old
summary at the front of the reasons, while `reason` (add_reason) appends at
the back — the two ordering directions are mixed within the same
implementation, contrary to the claim. -/
theorem c4_counterexample :
    (((UserFacingError.new "A").reason "R").push "B").reasons = some ["A", "R"]
    ∧ (((UserFacingError.new "A").reason "R").reason "A").reasons = some ["R", "A"]
    ∧ some (["A", "R"] : List String) ≠ some ["R", "A"] := by
  exact ⟨rfl, rfl, by decide⟩

/-- Claim C4 (amended): both `UserFacingError::push` and
`UserError::update_and_push_summary` insert the current summary at the front
of the reasons (creating the list if absent) and then replace the summary.
In `UserError` this front position matches `add_reason`'s front insertion;
in `UserFacingError` it does not match `reason`'s append — that
implementation mixes the two directions. -/
theorem c4_push_summary_as_reason (e : UserFacingError) (u : UserError) (ns r : String) :
    (e.push ns).summary = ns
    ∧ (e.push ns).reasons = some (e.summary :: e.reasons.getD [])
    ∧ (u.updateAndPushSummary ns).summary = ns
    ∧ (u.updateAndPushSummary ns).reasons = some (u.summary :: u.reasons.getD [])
    ∧ (u.addReason r).reasons = some (r :: u.reasons.getD [])
    ∧ (e.reason r).reasons = some (e.reasons.getD [] ++ [r]) := by
  refine ⟨rfl, ?_, rfl, ?_, ?_, ?_⟩
  · cases h : e.reasons <;> simp [UserFacingError.push, h]
  · cases h : u.reasons <;>
      simp [UserError.updateAndPushSummary, UserError.addReason, h]
  · cases h : u.reasons <;> simp [UserError.addReason, h]
  · cases h : e.reasons <;> simp [UserFacingError.reason, h]

/-! ### Claim C5 -/

lemma length_strPop (s : String) : (strPop s).length = s.length - 1 := by
  cases s with
  | mk data => simp [strPop, String.length_mk, List.length_dropLast]

lemma length_colorfulWrap (g s : String) :
    (colorfulWrap g s).length = 7 + g.length + s.length := by
  have h2 : ("\x1b[" : String).length = 2 := rfl
  have h1 : ("m" : String).length = 1 := rfl
  have h4 : ("\x1b[0m" : String).length = 4 := rfl
  simp [colorfulWrap, String.length_append, h2, h1, h4]
  omega

lemma length_reasonLine (x : String) : (reasonLine x).length = 17 + x.length := by
  have hg : sgrYellow.length = 7 := rfl
  have hd : ("-" : String).length = 1 := rfl
  have hsp : (" " : String).length = 1 := rfl
  have hnl : ("\n" : String).length = 1 := rfl
  simp [reasonLine, String.length_append, length_colorfulWrap, hg, hd, hsp, hnl]
  omega

lemma length_subtlyLine (x : String) : (subtlyLine x).length = 17 + x.length := by
  have hg : sgrWhiteDim.length = 9 := rfl
  have hnl : ("\n" : String).length = 1 := rfl
  simp [subtlyLine, String.length_append, length_colorfulWrap, hg, hnl]
  omega

lemma length_eq_zero_of_eq_empty {s : String} (h : s = "") : s.length = 0 := by
  subst h; rfl

lemma reasonsStr_empty_iff (u : UserError) :
    u.reasonsStr = "" ↔ u.reasons.getD [] = [] := by
  cases hr : u.reasons with
  | none => simp [UserError.reasonsStr, hr]
  | some v =>
      cases v with
      | nil => simp [UserError.reasonsStr, hr, String.join, strPop]
      | cons x xs =>
          simp only [UserError.reasonsStr, hr, Option.getD_some]
          constructor
          · intro h
            exfalso
            have hlen := length_eq_zero_of_eq_empty h
            rw [length_strPop, List.map_cons, string_join_cons,
              String.length_append, length_reasonLine] at hlen
            omega
          · intro h
            exact absurd h (List.cons_ne_nil x xs)

lemma subtletiesStr_empty_iff (u : UserError) :
    u.subtletiesStr = "" ↔ u.subtleties.getD [] = [] := by
  cases hr : u.subtleties with
  | none => simp [UserError.subtletiesStr, hr]
  | some v =>
      cases v with
      | nil => simp [UserError.subtletiesStr, hr, String.join, strPop]
      | cons x xs =>
          simp only [UserError.subtletiesStr, hr, Option.getD_some]
          constructor
          · intro h
            exfalso
            have hlen := length_eq_zero_of_eq_empty h
            rw [length_strPop, List.map_cons, string_join_cons,
              String.length_append, length_subtlyLine] at hlen
            omega
          · intro h
            exact absurd h (List.cons_ne_nil x xs)

lemma isEmpty_false_of_ne {s : String} (h : ¬ s = "") : s.isEmpty = false := by
  cases h2 : s.isEmpty with
  | true => exact absurd ((String.isEmpty_iff s).mp h2) h
  | false => rfl

lemma isEmpty_true_of_eq {s : String} (h : s = "") : s.isEmpty = true := by
  subst h; rfl

/-- Claim C5 counterexample: the `Display` impl for `UserFacingError` uses
`writeln!`, so even a summary-only message renders with a trailing newline
after its last (only) segment, contrary to "no trailing segment separator
after the last present segment". -/
theorem c5_counterexample :
    (UserFacingError.new "S").render = prettySummary "S" ++ "\n"
    ∧ prettySummary "S" ++ "\n" ≠ prettySummary "S" := by
  exact ⟨rfl, by decide⟩

/-- Claim C5 (amended): `UserError`'s rendering satisfies the claim exactly:
the output is the present segments joined with exactly one newline between
adjacent segments, no artifact for an absent segment and no trailing
separator, the reasons (resp. subtleties) segment being present exactly when
the field holds a non-empty list. `UserFacingError`'s rendering joins its
segments the same way but then appends one trailing newline (from
`writeln!`), and its reasons segment is emitted whenever the field is
`Some`, including `Some` of an empty list. -/
theorem c5_segment_joins (u : UserError) (e : UserFacingError) :
    u.render = joinSegs ([u.summaryStr]
        ++ (if u.reasonsStr = "" then [] else [u.reasonsStr])
        ++ (if u.subtletiesStr = "" then [] else [u.subtletiesStr]))
    ∧ (u.reasonsStr = "" ↔ u.reasons.getD [] = [])
    ∧ (u.subtletiesStr = "" ↔ u.subtleties.getD [] = [])
    ∧ e.render = joinSegs ([prettySummary e.summary]
        ++ optSegment (prettyReasons e.reasons)
        ++ optSegment (prettyHelptext e.helptext)) ++ "\n"
    ∧ (prettyReasons e.reasons).isSome = e.reasons.isSome := by
  refine ⟨?_, reasonsStr_empty_iff u, subtletiesStr_empty_iff u, ?_, ?_⟩
  · have h0 : ("" : String).isEmpty = true := rfl
    by_cases hr : u.reasonsStr = "" <;> by_cases ht : u.subtletiesStr = ""
    · simp [UserError.render, isEmpty_true_of_eq hr, isEmpty_true_of_eq ht, hr, ht,
        joinSegs, String.append_empty, h0]
    · simp [UserError.render, isEmpty_true_of_eq hr, isEmpty_false_of_ne ht, hr, ht,
        joinSegs, String.append_assoc, h0]
    · simp [UserError.render, isEmpty_false_of_ne hr, isEmpty_true_of_eq ht, hr, ht,
        joinSegs, String.append_assoc, String.append_empty, h0]
    · simp [UserError.render, isEmpty_false_of_ne hr, isEmpty_false_of_ne ht, hr, ht,
        joinSegs, String.append_assoc, h0]
  · cases hr : e.reasons <;> cases hh : e.helptext <;>
      simp [UserFacingError.render, prettyReasons, prettyHelptext, hr, hh,
        joinSegs, optSegment, String.append_assoc]
  · cases hr : e.reasons <;> simp [prettyReasons, hr]

/-! ### Claim C6 -/

/-- Claim C6 counterexample: `UserError::new` and `UserError::hardcoded` wrap
the caller's reason list in `Some` unconditionally, so passing an empty list
produces the reachable state `reasons = Some([])` — an empty list
masquerading as "has reasons". -/
theorem c6_counterexample :
    (UserError.hardcoded "s" [] []).reasons = some []
    ∧ (UserError.new none "s" [] []).reasons = some []
    ∧ reasonsOk (some ([] : List String)) = false := by
  exact ⟨rfl, rfl, rfl⟩

/-- Claim C6 (amended): the "absent or non-empty" reasons invariant is
established and preserved by `UserFacingError::new`, the `From` conversions
(via `error_sources`, which never returns `Some` of an empty list),
`reason`, `push` and `clear_reasons`, and by `UserError`'s `simple`,
`default`, the string conversions, `add_reason` and `clear_reasons`; but
`UserError::new` and `UserError::hardcoded` store `Some` of the caller's
list as given, which is the empty list when the caller passes one. -/
theorem c6_reasons_invariant (s r ns : String) (e : UserFacingError) (u : UserError)
    (o : Option ErrTree) (p : Option String) (rs ss : List String) :
    reasonsOk (UserFacingError.new s).reasons = true
    ∧ reasonsOk (errorSources o) = true
    ∧ reasonsOk (UserFacingError.fromError (ErrTree.node s (ErrTree.leaf r))).reasons = true
    ∧ reasonsOk (e.reason r).reasons = true
    ∧ reasonsOk (e.push ns).reasons = true
    ∧ reasonsOk e.clearReasons.reasons = true
    ∧ reasonsOk (u.addReason r).reasons = true
    ∧ reasonsOk u.clearReasons.reasons = true
    ∧ reasonsOk (UserError.simple s).reasons = true
    ∧ reasonsOk (UserError.fromString s).reasons = true
    ∧ reasonsOk (UserError.default p).reasons = true
    ∧ (UserError.new p s rs ss).reasons = some rs
    ∧ (UserError.hardcoded s rs ss).reasons = some rs := by
  refine ⟨rfl, ?_, rfl, ?_, ?_, rfl, ?_, rfl, rfl, rfl, rfl, rfl, rfl⟩
  · cases o with
    | none => rfl
    | some t => simp [errorSources, collectSources_eq, reasonsOk]
  · cases h : e.reasons <;> simp [UserFacingError.reason, h, reasonsOk]
  · cases h : e.reasons <;> simp [UserFacingError.push, h, reasonsOk]
  · cases h : u.reasons <;> simp [UserError.addReason, h, reasonsOk]

/-! ### Claim C7 -/

/-- Model: Rust `String::pop` never panics: it is total (removes the last character or
leaves an empty string unchanged), modelled in the checked rendering
pipeline as an always-`some` step. -/
def strPopChecked (s : String) : Option String := some (strPop s)

/-- Variant of `UserError::reasons` with its one library call (`String::pop`) routed
through the checked model. -/
def UserError.reasonsStrChecked (u : UserError) : Option String :=
  match u.reasons with
  | some v => strPopChecked (String.join (v.map reasonLine))
  | none => some ""

/-- Variant of `UserError::subtleties` with `String::pop` routed through the checked
model. -/
def UserError.subtletiesStrChecked (u : UserError) : Option String :=
  match u.subtleties with
  | some v => strPopChecked (String.join (v.map subtlyLine))
  | none => some ""

/-- The `Display` impl for `UserError` with every fallible-looking step in
`Option`: a `none` anywhere would model a panic or formatting failure. -/
def UserError.renderChecked (u : UserError) : Option String := do
  let summary := u.summaryStr
  let reasons ← u.reasonsStrChecked
  let subtleties ← u.subtletiesStrChecked
  let summary := if !reasons.isEmpty || !subtleties.isEmpty then summary ++ "\n" else summary
  let reasons := if !reasons.isEmpty && !subtleties.isEmpty then reasons ++ "\n" else reasons
  some (summary ++ reasons ++ subtleties)

/-- Claim C7: rendering is total and panic-free over every message state.
The checked `UserError` pipeline always returns `some` of the rendered
string, and the `UserFacingError` `Display` match produces an output for
every combination of present/absent reasons and help text — including empty
strings, and empty sequences, where `Some []` renders like the absent case
for `UserError`. -/
theorem c7_render_total (u : UserError) (su ht : String) (rs : List String) :
    u.renderChecked = some u.render
    ∧ (UserFacingError.mk su none none none).render = prettySummary su ++ "\n"
    ∧ (UserFacingError.mk su (some rs) none none).render
        = prettySummary su ++ "\n"
          ++ (String.intercalate "\n" (rs.map (fun r => reasonPfx ++ r)) ++ resetCode) ++ "\n"
    ∧ (UserFacingError.mk su none (some ht) none).render
        = prettySummary su ++ "\n" ++ (helptextPfx ++ ht ++ resetCode) ++ "\n"
    ∧ (UserFacingError.mk su (some rs) (some ht) none).render
        = prettySummary su ++ "\n"
          ++ (String.intercalate "\n" (rs.map (fun r => reasonPfx ++ r)) ++ resetCode) ++ "\n"
          ++ (helptextPfx ++ ht ++ resetCode) ++ "\n"
    ∧ (UserError.mk su (some []) (some []) none).render
        = (UserError.mk su none none none).render := by
  refine ⟨?_, rfl, rfl, rfl, rfl, ?_⟩
  · cases hr : u.reasons <;> cases ht : u.subtleties <;>
      simp [UserError.renderChecked, UserError.render,
        UserError.reasonsStrChecked, UserError.subtletiesStrChecked,
        UserError.reasonsStr, UserError.subtletiesStr, strPopChecked, hr, ht]
  · have h0 : ("" : String).isEmpty = true := rfl
    simp [UserError.render, UserError.reasonsStr, UserError.subtletiesStr,
      UserError.summaryStr, String.join, strPop, h0]

/-! ### Claim C8 -/

/-- Claim C8: rendering is a deterministic function of the summary, reasons
and help-text fields alone — two messages agreeing on those fields (the
`source` field may differ) render to byte-identical strings, so rendering
the same unmutated message twice yields identical output. -/
theorem c8_render_deterministic (e1 e2 : UserFacingError)
    (h1 : e1.summary = e2.summary) (h2 : e1.reasons = e2.reasons)
    (h3 : e1.helptext = e2.helptext) :
    e1.render = e2.render := by
  cases e1
  cases e2
  simp only at h1 h2 h3
  subst h1
  subst h2
  subst h3
  rfl

/-- Witness for C8's theorem: two concrete messages differing only in their
`source` field render identically. -/
theorem c8_render_deterministic_witness :
    (UserFacingError.mk "s" none none none).render
      = (UserFacingError.mk "s" none none (some (ErrTree.leaf "x"))).render :=
  c8_render_deterministic _ _ rfl rfl rfl

/-! ### Claim C9 -/

/-- Claim C9 counterexample: `pretty_reasons` emits a single `RESET` at the
end of the whole reasons segment, so with two bulleted reason lines the
output contains one reset sequence, not one per bulleted line — the first
bullet line is terminated by a newline and the next line's escape prefix,
not by a reset. -/
theorem c9_counterexample :
    prettyReasons (some ["a", "b"])
      = some (reasonPfx ++ "a" ++ "\n" ++ (reasonPfx ++ "b") ++ resetCode)
    ∧ countResets ((prettyReasons (some ["a", "b"])).getD "") = 1
    ∧ (1 : Nat) ≠ 2 := by
  exact ⟨by decide, by decide, by decide⟩

/-- Claim C9 (amended): ANSI escape codes are emitted unconditionally — the
summary segment always begins with `SUMMARY_PREFIX`, the help-text segment
with `HELPTEXT_PREFIX`, and every `colorful`-styled run in the `UserError`
renderer is wrapped in SGR codes — and every rendered *segment* (summary,
the reasons block as a whole, help text) is terminated by a single reset
sequence; within the reasons segment only the final line is followed by the
reset. -/
theorem c9_unconditional_escapes (s h g : String) (rs : List String) :
    prettySummary s = summaryPfx ++ (s ++ resetCode)
    ∧ (∃ t, prettySummary s = t ++ resetCode)
    ∧ (∃ t, (prettyReasons (some rs)).getD "" = t ++ resetCode)
    ∧ (prettyHelptext (some h)).getD "" = helptextPfx ++ (h ++ resetCode)
    ∧ (∃ t, (prettyHelptext (some h)).getD "" = t ++ resetCode)
    ∧ (∃ t, colorfulWrap g s = ("\x1b[" ++ (g ++ "m")) ++ t ++ "\x1b[0m") := by
  refine ⟨?_, ⟨summaryPfx ++ s, ?_⟩, ⟨String.intercalate "\n"
      (rs.map (fun r => reasonPfx ++ r)), rfl⟩, ?_, ⟨helptextPfx ++ h, ?_⟩,
      ⟨s, ?_⟩⟩ <;>
    simp [prettySummary, prettyHelptext, colorfulWrap, String.append_assoc]

/-! ### Claim C10 -/

/-- Claim C10: the `From<Result<T, Box<dyn Error>>>` conversion calls
`unwrap_err()`, which panics on an `Ok` value (modelled as `none`); on
`Err(e)` it always succeeds with summary `display(e)`, reasons derived from
`e`'s source chain by `error_sources`, absent help text, and `e` stored as
the source. -/
theorem c10_from_result (T : Type) (t : T) (e : ErrTree) :
    (UserFacingError.fromResult (Except.ok t) : Option UserFacingError) = none
    ∧ UserFacingError.fromResult (Except.error e : Except ErrTree T)
        = some (UserFacingError.mk e.display (errorSources e.source) none (some e)) := by
  exact ⟨rfl, rfl⟩

end UserErrorSpec
